import Mathlib

/-!
# Bagpack collection pipeline — shallow embedding

This file embeds the collection-and-normalization pipeline of the bagpack
repository (`apps/bagpack-tui/src/collect.ts`: `runCommand`, `collectBrew`,
`collectNpm`, `collectPip`, `collectInventory`) into Lean 4 and proves the
specification's claims about it.

Modelling conventions:
* The operating-system process boundary (`Bun.spawn`) is an explicit
  collaborator: an `Env` carries a `spawn` function mapping a program and
  argument list to the exit code, stdout and stderr the child would produce.
* The JavaScript `JSON.parse(...) as T` call sites are collaborators as well:
  `Env` carries one typed parse function per call site, returning either the
  typed payload the cast promises or a parse error (`JSON.parse` throwing).
  The pipeline's own string handling (line splitting, whitespace splitting,
  trimming, truthiness tests) is embedded directly.
* JavaScript exceptions become `Except String` (the code only ever throws
  `Error(message)` and only ever consumes `error.message`).
* JavaScript `Map` (insertion-ordered, `set` overwrites in place) becomes an
  association list with `mapSet`/`mapGet`.
* Each collector additionally returns the list of commands it spawned, in
  order, so that "the outdated step is never invoked" is a statement about
  the model rather than about missing observability.
-/

/-- JavaScript `String.prototype.trim`: drop leading and trailing
whitespace. Modelled on the character list so it evaluates definitionally
(`Char.isWhitespace` stands in for the JavaScript whitespace class). -/
def jsTrim (s : String) : String :=
  ⟨((s.data.dropWhile Char.isWhitespace).reverse.dropWhile Char.isWhitespace).reverse⟩

/-- Split a character list at every character satisfying `p`, keeping empty
segments — the behavior of JavaScript `split` with a single-character
separator. -/
def splitOnPred (p : Char → Bool) : List Char → List (List Char)
  | [] => [[]]
  | x :: xs =>
    if p x then [] :: splitOnPred p xs
    else
      match splitOnPred p xs with
      | [] => [[x]]
      | y :: ys => (x :: y) :: ys

/-- JavaScript `stdout.split("\n")`. -/
def jsSplitLines (s : String) : List String :=
  (splitOnPred (· = '\n') s.data).map String.mk

/-- JavaScript `line.trim().split(/\s+/)` on a line whose trim is non-empty:
split at whitespace runs, which on a trimmed string is splitting at every
whitespace character and discarding the empty segments between adjacent
whitespace characters. -/
def jsSplitWs (line : String) : List String :=
  ((splitOnPred Char.isWhitespace (jsTrim line).data).filter (· ≠ [])).map String.mk

/-- JavaScript truthiness of a string: non-empty. -/
def jsTruthy (s : String) : Bool := s ≠ ""

/-- JavaScript truthiness of a `string | null` value. -/
def jsOptTruthy : Option String → Bool
  | none => false
  | some s => jsTruthy s

/-- JavaScript `a || b` on `string`-or-absent operands: keep `a` when truthy,
otherwise fall through to `b`. -/
def jsOr (a b : Option String) : Option String :=
  match a with
  | some s => if jsTruthy s then some s else b
  | none => b

/-- Insertion-ordered map update, as JavaScript `Map.prototype.set`: an
existing key keeps its position and gets the new value; a new key is appended. -/
def mapSet (m : List (String × String)) (k v : String) : List (String × String) :=
  match m with
  | [] => [(k, v)]
  | (k0, v0) :: rest => if k0 = k then (k0, v) :: rest else (k0, v0) :: mapSet rest k v

/-- Lookup, as JavaScript `Map.prototype.get` (with `?? null` at use sites). -/
def mapGet (m : List (String × String)) (k : String) : Option String :=
  match m with
  | [] => none
  | (k0, v0) :: rest => if k0 = k then some v0 else mapGet rest k

deriving instance DecidableEq for Except

/-- `type PackageStatus = "current" | "outdated" | "unknown"` -/
inductive PackageStatus where
  | current
  | outdated
  | unknown
  deriving DecidableEq, Repr

/-- `type PackageManager = "brew" | "npm" | "pip"` -/
inductive PackageManager where
  | brew
  | npm
  | pip
  deriving DecidableEq, Repr

/-- `interface PackageRecord` from the shared types. -/
structure PackageRecord where
  name : String
  current_version : String
  latest_version : Option String
  installed_at : Option String
  status : PackageStatus
  manager : PackageManager
  deriving DecidableEq, Repr

/-- `interface InventorySnapshot` from the shared types
(`generated_at?: string | null`). -/
structure InventorySnapshot where
  generated_at : Option String
  packages : List PackageRecord
  deriving DecidableEq, Repr

/-- `CollectionWarning { manager, message }` as consumed by both front ends. -/
structure CollectionWarning where
  manager : PackageManager
  message : String
  deriving DecidableEq, Repr

/-- `CollectionSummary { snapshot, warnings }`. -/
structure CollectionSummary where
  snapshot : InventorySnapshot
  warnings : List CollectionWarning
  deriving DecidableEq, Repr

/-- What one spawned child process produces: exit code, stdout, stderr. -/
structure SpawnResult where
  code : Int
  stdout : String
  stderr : String
  deriving DecidableEq, Repr

/-- `interface CommandResult { code; stdout; stderr }` from collect.ts. -/
structure CommandResult where
  code : Int
  stdout : String
  stderr : String
  deriving DecidableEq, Repr

/-- `type BrewFormula` (fields of the brew outdated JSON the code reads).
`name` is typed `string` in the source; absent shows up as the falsy `""`. -/
structure BrewFormula where
  name : String
  current_version : Option String
  latest_version : Option String
  deriving DecidableEq, Repr

/-- `type BrewOutdated = { formulae: BrewFormula[] }`; the code guards with
`parsed.formulae ?? []`, so the field is optional here. -/
structure BrewOutdated where
  formulae : Option (List BrewFormula)
  deriving DecidableEq, Repr

/-- One value of npm's `dependencies` record: `{ version?: string }`. -/
structure NpmDep where
  version : Option String
  deriving DecidableEq, Repr

/-- `type NpmTree = { dependencies?: Record<string, {version?} | undefined> }`.
`Object.entries` iterates in insertion order, so the record is an ordered
association list. -/
structure NpmTree where
  dependencies : Option (List (String × Option NpmDep))
  deriving DecidableEq, Repr

/-- One value of the npm outdated JSON object: `{ latest?: string }`. -/
structure NpmOutdatedDetails where
  latest : Option String
  deriving DecidableEq, Repr

/-- `type PipPackage = { name: string; version: string }`. -/
structure PipPackage where
  name : String
  version : String
  deriving DecidableEq, Repr

/-- `type PipOutdated = { name: string; latest_version: string }`. -/
structure PipOutdatedEntry where
  name : String
  latest_version : String
  deriving DecidableEq, Repr

/-- The collaborators the pipeline depends on: the process spawn boundary and
the `JSON.parse(...) as T` call sites (one typed parse function per site). -/
structure Env where
  spawn : String → List String → SpawnResult
  parseBrewOutdated : String → Except String BrewOutdated
  parseNpmLs : String → Except String NpmTree
  parseNpmOutdated : String → Except String (List (String × Option NpmOutdatedDetails))
  parsePipList : String → Except String (List PipPackage)
  parsePipOutdated : String → Except String (List PipOutdatedEntry)

/-- The error message `runCommand` throws:
``program args.join(" ") failed (exit code): stderr.trim()``. -/
def commandFailureMessage (program : String) (args : List String)
    (code : Int) (stderr : String) : String :=
  program ++ " " ++ String.intercalate " " args ++ " failed (exit "
    ++ toString code ++ "): " ++ jsTrim stderr

/-- `runCommand(program, args, allowedExitCodes)`: spawn the child, capture
exit code, stdout and stderr, throw when the exit code is not allowed. -/
def runCommand (env : Env) (program : String) (args : List String)
    (allowedExitCodes : List Int) : Except String CommandResult :=
  let r := env.spawn program args
  if allowedExitCodes.contains r.code then
    .ok { code := r.code, stdout := r.stdout, stderr := r.stderr }
  else
    .error (commandFailureMessage program args r.code r.stderr)

/-- `runCommand` with its default argument `allowedExitCodes = [0]`. -/
def runCommandDefault (env : Env) (program : String) (args : List String) :
    Except String CommandResult :=
  runCommand env program args [0]

/-- A spawned command: program plus argument list. -/
abbrev Invocation := String × List String

/-- The brew inventory-step invocation `brew list --versions`. -/
def brewListInvocation : Invocation := ("brew", ["list", "--versions"])

/-- The brew outdated-step invocation `brew outdated --json=v2`. -/
def brewOutdatedInvocation : Invocation := ("brew", ["outdated", "--json=v2"])

/-- The npm inventory-step invocation `npm ls -g --depth=0 --json`. -/
def npmLsInvocation : Invocation := ("npm", ["ls", "-g", "--depth=0", "--json"])

/-- The npm outdated-step invocation `npm outdated -g --json`. -/
def npmOutdatedInvocation : Invocation := ("npm", ["outdated", "-g", "--json"])

/-- The pip inventory-step invocation `pip list --format=json`. -/
def pipListInvocation : Invocation := ("pip", ["list", "--format=json"])

/-- The pip outdated-step invocation `pip list --outdated --format=json`. -/
def pipOutdatedInvocation : Invocation := ("pip", ["list", "--outdated", "--format=json"])

/-- The line loop of `collectBrew`: split stdout on newlines, skip blank
lines, split each line on whitespace (the trimmed `/\s+/` split never yields
empty parts), skip lines with fewer than two parts, and `set` name (first
part) to version (last part). -/
def parseBrewList (stdout : String) : List (String × String) :=
  (jsSplitLines stdout).foldl
    (fun installed line =>
      if jsTrim line = "" then installed
      else
        let parts := jsSplitWs line
        if parts.length < 2 then installed
        else mapSet installed (parts.headD "") (parts.getLastD ""))
    []

/-- The formula loop of `collectBrew`: for each formula of `formulae ?? []`,
`latest = latest_version || current_version || null`; when both `name` and
`latest` are truthy, `outdatedMap.set(name, latest)`. -/
def buildBrewOutdatedMap (parsed : BrewOutdated) : List (String × String) :=
  (parsed.formulae.getD []).foldl
    (fun m formula =>
      let latest := jsOr formula.latest_version (jsOr formula.current_version none)
      if jsTruthy formula.name && jsOptTruthy latest then
        mapSet m formula.name (latest.getD "")
      else m)
    []

/-- The record constructor at the end of `collectBrew`:
`status = latest_version && latest_version !== current_version ? "outdated" : "current"`. -/
def mkBrewRecord (name current : String) (latest : Option String) : PackageRecord :=
  { name := name
    current_version := current
    latest_version := latest
    installed_at := none
    status :=
      if jsOptTruthy latest && latest ≠ some current then .outdated else .current
    manager := .brew }

/-- `collectBrew()`: run the inventory command, parse the listing, return
early on an empty inventory, otherwise run the outdated command, build the
latest-version map (skipping the parse when stdout trims to empty), and emit
one record per installed entry. The second component records the commands
spawned, in order. -/
def collectBrew (env : Env) : Except String (List PackageRecord) × List Invocation :=
  match runCommand env "brew" ["list", "--versions"] [0] with
  | .error e => (.error e, [brewListInvocation])
  | .ok list =>
    let installed := parseBrewList list.stdout
    if installed.isEmpty then (.ok [], [brewListInvocation])
    else
      match runCommand env "brew" ["outdated", "--json=v2"] [0] with
      | .error e => (.error e, [brewListInvocation, brewOutdatedInvocation])
      | .ok outdated =>
        let outdatedMap : Except String (List (String × String)) :=
          if jsTrim outdated.stdout ≠ "" then
            match env.parseBrewOutdated outdated.stdout with
            | .error err => .error ("Failed to parse brew outdated JSON: " ++ err)
            | .ok parsed => .ok (buildBrewOutdatedMap parsed)
          else .ok []
        match outdatedMap with
        | .error e => (.error e, [brewListInvocation, brewOutdatedInvocation])
        | .ok omap =>
          (.ok (installed.map fun p => mkBrewRecord p.1 p.2 (mapGet omap p.1)),
           [brewListInvocation, brewOutdatedInvocation])

/-- The entries loop over the npm outdated JSON object: keep `details.latest`
when truthy (`if (details?.latest)`), `set` into the map. -/
def buildNpmOutdatedMap (entries : List (String × Option NpmOutdatedDetails)) :
    List (String × String) :=
  entries.foldl
    (fun m e =>
      match e.2 with
      | none => m
      | some details =>
        if jsOptTruthy details.latest then mapSet m e.1 (details.latest.getD "")
        else m)
    []

/-- The record one npm dependencies entry pushes:
`status = latest_version ? "outdated" : "current"`. -/
def mkNpmRecord (outdatedMap : List (String × String)) (name v : String) :
    PackageRecord :=
  let latest := mapGet outdatedMap name
  { name := name
    current_version := v
    latest_version := latest
    installed_at := none
    status := if jsOptTruthy latest then .outdated else .current
    manager := .npm }

/-- One iteration of the dependencies loop of `collectNpm`: skip entries
whose value or `version` is missing or falsy (`if (!pkg?.version) continue`),
otherwise push one record. -/
def npmStep (outdatedMap : List (String × String))
    (packages : List PackageRecord) (entry : String × Option NpmDep) :
    List PackageRecord :=
  match entry.2 with
  | none => packages
  | some pkg =>
    match pkg.version with
    | none => packages
    | some v =>
      if jsTruthy v then packages ++ [mkNpmRecord outdatedMap entry.1 v]
      else packages

/-- The dependencies loop of `collectNpm`. -/
def buildNpmPackages (deps : List (String × Option NpmDep))
    (outdatedMap : List (String × String)) : List PackageRecord :=
  deps.foldl (npmStep outdatedMap) []

/-- `collectNpm()`: run `npm ls -g --depth=0 --json` (allowed exit codes
`[0]`), parse `dependencies ?? {}` (a parse error becomes a thrown
`Failed to parse npm ls JSON` error), run `npm outdated -g --json` with
allowed exit codes `[0, 1]`, build the latest map when stdout trims
non-empty, and emit the records. The npm collector has no empty-inventory
early return: the outdated command is spawned even when `dependencies` is
empty. -/
def collectNpm (env : Env) : Except String (List PackageRecord) × List Invocation :=
  match runCommand env "npm" ["ls", "-g", "--depth=0", "--json"] [0] with
  | .error e => (.error e, [npmLsInvocation])
  | .ok list =>
    let deps : Except String (List (String × Option NpmDep)) :=
      match env.parseNpmLs list.stdout with
      | .error err => .error ("Failed to parse npm ls JSON: " ++ err)
      | .ok parsed => .ok (parsed.dependencies.getD [])
    match deps with
    | .error e => (.error e, [npmLsInvocation])
    | .ok dependencies =>
      match runCommand env "npm" ["outdated", "-g", "--json"] [0, 1] with
      | .error e => (.error e, [npmLsInvocation, npmOutdatedInvocation])
      | .ok outdated =>
        let outdatedMap : Except String (List (String × String)) :=
          if jsTrim outdated.stdout ≠ "" then
            match env.parseNpmOutdated outdated.stdout with
            | .error err => .error ("Failed to parse npm outdated JSON: " ++ err)
            | .ok parsed => .ok (buildNpmOutdatedMap parsed)
          else .ok []
        match outdatedMap with
        | .error e => (.error e, [npmLsInvocation, npmOutdatedInvocation])
        | .ok omap =>
          (.ok (buildNpmPackages dependencies omap),
           [npmLsInvocation, npmOutdatedInvocation])

/-- The final map of `collectPip`:
`status = latest_version ? "outdated" : "current"`. -/
def mkPipRecord (outdatedMap : List (String × String)) (pkg : PipPackage) :
    PackageRecord :=
  let latest := mapGet outdatedMap pkg.name
  { name := pkg.name
    current_version := pkg.version
    latest_version := latest
    installed_at := none
    status := if jsOptTruthy latest then .outdated else .current
    manager := .pip }

/-- `collectPip()`: run `pip list --format=json`, parse the installed array,
run `pip list --outdated --format=json`, build the latest map when stdout
trims non-empty (`outdatedMap.set(pkg.name, pkg.latest_version)` with no
truthiness guard), and emit one record per installed package. Like npm, pip
has no empty-inventory early return: the outdated command is spawned even
when the installed array is empty. -/
def collectPip (env : Env) : Except String (List PackageRecord) × List Invocation :=
  match runCommand env "pip" ["list", "--format=json"] [0] with
  | .error e => (.error e, [pipListInvocation])
  | .ok list =>
    let parsedList : Except String (List PipPackage) :=
      match env.parsePipList list.stdout with
      | .error err => .error ("Failed to parse pip list JSON: " ++ err)
      | .ok parsed => .ok parsed
    match parsedList with
    | .error e => (.error e, [pipListInvocation])
    | .ok installed =>
      match runCommand env "pip" ["list", "--outdated", "--format=json"] [0] with
      | .error e => (.error e, [pipListInvocation, pipOutdatedInvocation])
      | .ok outdated =>
        let outdatedMap : Except String (List (String × String)) :=
          if jsTrim outdated.stdout ≠ "" then
            match env.parsePipOutdated outdated.stdout with
            | .error err => .error ("Failed to parse pip outdated JSON: " ++ err)
            | .ok parsed =>
              .ok (parsed.foldl (fun m p => mapSet m p.name p.latest_version) [])
          else .ok []
        match outdatedMap with
        | .error e => (.error e, [pipListInvocation, pipOutdatedInvocation])
        | .ok omap =>
          (.ok (installed.map (mkPipRecord omap)),
           [pipListInvocation, pipOutdatedInvocation])

/-- The result component of a collector run. -/
def collectBrewResult (env : Env) : Except String (List PackageRecord) :=
  (collectBrew env).1

/-- The commands `collectBrew` spawned, in order. -/
def collectBrewSpawns (env : Env) : List Invocation :=
  (collectBrew env).2

/-- The result component of a `collectNpm` run. -/
def collectNpmResult (env : Env) : Except String (List PackageRecord) :=
  (collectNpm env).1

/-- The commands `collectNpm` spawned, in order. -/
def collectNpmSpawns (env : Env) : List Invocation :=
  (collectNpm env).2

/-- The result component of a `collectPip` run. -/
def collectPipResult (env : Env) : Except String (List PackageRecord) :=
  (collectPip env).1

/-- The commands `collectPip` spawned, in order. -/
def collectPipSpawns (env : Env) : List Invocation :=
  (collectPip env).2

/-- The `handlers` array of `collectInventory`, each runner already run
against the environment: manager tag in enumeration order (brew, npm, pip)
paired with that collector's outcome. -/
def handlers (env : Env) :
    List (PackageManager × Except String (List PackageRecord)) :=
  [(.brew, collectBrewResult env), (.npm, collectNpmResult env),
   (.pip, collectPipResult env)]

/-- The body of `collectInventory`'s `for` loop: a successful runner pushes
its packages, a failing runner pushes one warning carrying its manager tag
and the error message. -/
def inventoryStep (acc : List PackageRecord × List CollectionWarning)
    (h : PackageManager × Except String (List PackageRecord)) :
    List PackageRecord × List CollectionWarning :=
  match h.2 with
  | .ok packages => (acc.1 ++ packages, acc.2)
  | .error e => (acc.1, acc.2 ++ [{ manager := h.1, message := e }])

/-- `collectInventory()`: stamp `generated_at` (the `new Date().toISOString()`
call is the `now` collaborator), run the three handlers in order catching
each failure individually, and return the summary. Never fails. -/
def collectInventory (env : Env) (now : String) : CollectionSummary :=
  let acc := (handlers env).foldl inventoryStep ([], [])
  { snapshot := { generated_at := some now, packages := acc.1 }
    warnings := acc.2 }

/-- The records a successful collector contributes to the snapshot ([] for a
failed one). -/
def okRecords : Except String (List PackageRecord) → List PackageRecord
  | .ok records => records
  | .error _ => []

/-- The warnings a failed collector contributes ([] for a successful one). -/
def failWarnings (m : PackageManager) :
    Except String (List PackageRecord) → List CollectionWarning
  | .ok _ => []
  | .error e => [{ manager := m, message := e }]

/-- Modelled from the spec: no wire-format serializer exists under `src/`
(the wire document of spec §6 is witnessed only by the README's JSON schema
and the front ends' record types). One serialized record: same fields as
`PackageRecord`, with `status` carried as the wire literal
(`"current" | "outdated" | "-"`). -/
structure WireRecord where
  name : String
  currentVersion : String
  latestVersion : Option String
  installedAt : Option String
  status : String
  deriving DecidableEq, Repr

/-- Modelled from the spec: the wire document
`(generatedAt, managers: brew/npm/pip arrays)`. -/
structure WireDoc where
  generatedAt : Option String
  brew : List WireRecord
  npm : List WireRecord
  pip : List WireRecord
  deriving DecidableEq, Repr

/-- Modelled from the spec: `status` serializes `unknown` as the literal
`"-"`, the other two statuses as their own names. -/
def serializeStatus : PackageStatus → String
  | .current => "current"
  | .outdated => "outdated"
  | .unknown => "-"

/-- Modelled from the spec: the inverse status mapping; any string outside
the three wire literals is rejected. -/
def parseStatus : String → Option PackageStatus :=
  fun s =>
    if s = "current" then some .current
    else if s = "outdated" then some .outdated
    else if s = "-" then some .unknown
    else none

/-- Modelled from the spec: serialize one record to its wire shape (the
`manager` tag is carried by which array the record lands in). -/
def serializeRecord (r : PackageRecord) : WireRecord :=
  { name := r.name
    currentVersion := r.current_version
    latestVersion := r.latest_version
    installedAt := r.installed_at
    status := serializeStatus r.status }

/-- Modelled from the spec: serialize a snapshot to the wire document,
grouping records under their manager's key. -/
def serializeSnapshot (s : InventorySnapshot) : WireDoc :=
  { generatedAt := s.generated_at
    brew := (s.packages.filter (fun r => r.manager = .brew)).map serializeRecord
    npm := (s.packages.filter (fun r => r.manager = .npm)).map serializeRecord
    pip := (s.packages.filter (fun r => r.manager = .pip)).map serializeRecord }

/-- Modelled from the spec: parse one wire record back, reattaching the
manager tag of the array it came from; fails on an unrecognized status. -/
def parseWireRecord (m : PackageManager) (w : WireRecord) : Option PackageRecord :=
  (parseStatus w.status).map fun st =>
    { name := w.name
      current_version := w.currentVersion
      latest_version := w.latestVersion
      installed_at := w.installedAt
      status := st
      manager := m }

/-- Modelled from the spec: parse one manager's wire array back, failing if
any record fails. -/
def parseWireRecords (m : PackageManager) : List WireRecord → Option (List PackageRecord)
  | [] => some []
  | w :: ws =>
    match parseWireRecord m w, parseWireRecords m ws with
    | some r, some rs => some (r :: rs)
    | _, _ => none

/-- Modelled from the spec: parse a wire document back to a snapshot, the
packages sequence recomposed in manager enumeration order (brew, npm, pip). -/
def parseWireDoc (d : WireDoc) : Option InventorySnapshot :=
  match parseWireRecords .brew d.brew, parseWireRecords .npm d.npm,
      parseWireRecords .pip d.pip with
  | some brewRecords, some npmRecords, some pipRecords =>
    some { generated_at := d.generatedAt
           packages := brewRecords ++ npmRecords ++ pipRecords }
  | _, _, _ => none

/-- Modelled from the spec: no RefreshScheduler implementation exists under
`src/` (spec §4.5 and the README's refresh plans describe it; the Tauri
commands `schedule_refresh`/`stop_refresh` are only listed as wired in the
planning notes). State: `inflight = some r` is the `Running` state carrying
the in-flight run's eventual result, `inflight = none` is `Idle`; `current`
is the stored "current" summary slot; `started` counts aggregations
started, so "does not start a second aggregation" is a statement about the
model. -/
structure RefreshScheduler where
  inflight : Option CollectionSummary
  current : Option CollectionSummary
  started : Nat
  deriving DecidableEq, Repr

/-- Modelled from the spec: `refreshNow()` — when a run is already Running,
join it (return its eventual result, start nothing); when Idle, start one
aggregation whose eventual result is `runResult` and return that result. -/
def refreshNow (runResult : CollectionSummary) (s : RefreshScheduler) :
    RefreshScheduler × CollectionSummary :=
  match s.inflight with
  | some inflight => (s, inflight)
  | none =>
    ({ inflight := some runResult, current := s.current, started := s.started + 1 },
     runResult)

/-- Modelled from the spec: completion of the in-flight run — store its
result as "current" and transition back to Idle. -/
def completeRun (s : RefreshScheduler) : RefreshScheduler :=
  match s.inflight with
  | some r => { inflight := none, current := some r, started := s.started }
  | none => s

/-- A parse collaborator that rejects every input (used for call sites a
concrete scenario never reaches). -/
def rejectParse {α : Type} : String → Except String α :=
  fun _ => .error "SyntaxError: Unexpected token"

/-- Concrete environment for the happy-path scenarios: brew lists
`wget 1.24.5` with latest `1.24.6`; npm lists `typescript 5.5.2` and its
outdated command exits with code 1 and a body giving latest `5.6.3`; pip
lists `requests 2.32.3` and its outdated command succeeds with
whitespace-only stdout. -/
def envHappy : Env :=
  { spawn := fun program args =>
      if program = "brew" ∧ args = ["list", "--versions"] then
        { code := 0, stdout := "wget 1.24.5\n", stderr := "" }
      else if program = "brew" ∧ args = ["outdated", "--json=v2"] then
        { code := 0, stdout := "BREW_OUTDATED_BODY", stderr := "" }
      else if program = "npm" ∧ args = ["ls", "-g", "--depth=0", "--json"] then
        { code := 0, stdout := "NPM_LS_BODY", stderr := "" }
      else if program = "npm" ∧ args = ["outdated", "-g", "--json"] then
        { code := 1, stdout := "NPM_OUTDATED_BODY", stderr := "" }
      else if program = "pip" ∧ args = ["list", "--format=json"] then
        { code := 0, stdout := "PIP_LIST_BODY", stderr := "" }
      else if program = "pip" ∧ args = ["list", "--outdated", "--format=json"] then
        { code := 0, stdout := "  ", stderr := "" }
      else { code := 0, stdout := "", stderr := "" }
    parseBrewOutdated := fun s =>
      if s = "BREW_OUTDATED_BODY" then
        .ok { formulae := some [{ name := "wget", current_version := none,
                                  latest_version := some "1.24.6" }] }
      else .error "SyntaxError: Unexpected token"
    parseNpmLs := fun s =>
      if s = "NPM_LS_BODY" then
        .ok { dependencies := some [("typescript", some { version := some "5.5.2" })] }
      else .error "SyntaxError: Unexpected token"
    parseNpmOutdated := fun s =>
      if s = "NPM_OUTDATED_BODY" then
        .ok [("typescript", some { latest := some "5.6.3" })]
      else .error "SyntaxError: Unexpected token"
    parsePipList := fun s =>
      if s = "PIP_LIST_BODY" then .ok [{ name := "requests", version := "2.32.3" }]
      else .error "SyntaxError: Unexpected token"
    parsePipOutdated := rejectParse }

/-- The brew record `envHappy` produces. -/
def wgetRecord : PackageRecord :=
  { name := "wget", current_version := "1.24.5", latest_version := some "1.24.6",
    installed_at := none, status := .outdated, manager := .brew }

/-- The npm record `envHappy` produces. -/
def typescriptRecord : PackageRecord :=
  { name := "typescript", current_version := "5.5.2", latest_version := some "5.6.3",
    installed_at := none, status := .outdated, manager := .npm }

/-- The pip record `envHappy` produces. -/
def requestsRecord : PackageRecord :=
  { name := "requests", current_version := "2.32.3", latest_version := none,
    installed_at := none, status := .current, manager := .pip }

/-- Concrete environment refuting the claimed status invariant: pip reports
`alpha 1.0` installed and the pip outdated body lists `alpha` with
`latest_version = "1.0"`, equal to the installed version. -/
def envPipEqual : Env :=
  { spawn := fun program args =>
      if program = "pip" ∧ args = ["list", "--format=json"] then
        { code := 0, stdout := "PIP_LIST_BODY", stderr := "" }
      else if program = "pip" ∧ args = ["list", "--outdated", "--format=json"] then
        { code := 0, stdout := "PIP_OUTDATED_BODY", stderr := "" }
      else { code := 0, stdout := "", stderr := "" }
    parseBrewOutdated := rejectParse
    parseNpmLs := rejectParse
    parseNpmOutdated := rejectParse
    parsePipList := fun s =>
      if s = "PIP_LIST_BODY" then .ok [{ name := "alpha", version := "1.0" }]
      else .error "SyntaxError: Unexpected token"
    parsePipOutdated := fun s =>
      if s = "PIP_OUTDATED_BODY" then .ok [{ name := "alpha", latest_version := "1.0" }]
      else .error "SyntaxError: Unexpected token" }

/-- The pip record `envPipEqual` produces: latest equals current yet the
status is `outdated`. -/
def alphaRecord : PackageRecord :=
  { name := "alpha", current_version := "1.0", latest_version := some "1.0",
    installed_at := none, status := .outdated, manager := .pip }

/-- Concrete environment where every manager reports zero installed
packages: brew's listing is empty, npm's dependencies record is empty, pip's
installed array is empty, and all outdated commands would succeed with empty
stdout. -/
def envAllEmpty : Env :=
  { spawn := fun program args =>
      if program = "npm" ∧ args = ["ls", "-g", "--depth=0", "--json"] then
        { code := 0, stdout := "NPM_LS_EMPTY_BODY", stderr := "" }
      else if program = "pip" ∧ args = ["list", "--format=json"] then
        { code := 0, stdout := "PIP_LIST_EMPTY_BODY", stderr := "" }
      else { code := 0, stdout := "", stderr := "" }
    parseBrewOutdated := rejectParse
    parseNpmLs := fun s =>
      if s = "NPM_LS_EMPTY_BODY" then .ok { dependencies := some [] }
      else .error "SyntaxError: Unexpected token"
    parseNpmOutdated := rejectParse
    parsePipList := fun s =>
      if s = "PIP_LIST_EMPTY_BODY" then .ok []
      else .error "SyntaxError: Unexpected token"
    parsePipOutdated := rejectParse }

/-- Concrete environment where exactly the npm collector fails (its listing
body is malformed) while brew and pip succeed with one package each. -/
def envNpmFails : Env :=
  { spawn := fun program args =>
      if program = "brew" ∧ args = ["list", "--versions"] then
        { code := 0, stdout := "wget 1.24.5\n", stderr := "" }
      else if program = "npm" ∧ args = ["ls", "-g", "--depth=0", "--json"] then
        { code := 0, stdout := "NPM_LS_GARBAGE", stderr := "" }
      else if program = "pip" ∧ args = ["list", "--format=json"] then
        { code := 0, stdout := "PIP_LIST_BODY", stderr := "" }
      else { code := 0, stdout := "", stderr := "" }
    parseBrewOutdated := rejectParse
    parseNpmLs := rejectParse
    parseNpmOutdated := rejectParse
    parsePipList := fun s =>
      if s = "PIP_LIST_BODY" then .ok [{ name := "requests", version := "2.32.3" }]
      else .error "SyntaxError: Unexpected token"
    parsePipOutdated := rejectParse }

/-- The brew record `envNpmFails` produces (no outdated data: its outdated
stdout is empty, so the latest map is empty). -/
def wgetCurrentRecord : PackageRecord :=
  { name := "wget", current_version := "1.24.5", latest_version := none,
    installed_at := none, status := .current, manager := .brew }

/-- The pip record `envNpmFails` produces. -/
def requestsCurrentRecord : PackageRecord :=
  { name := "requests", current_version := "2.32.3", latest_version := none,
    installed_at := none, status := .current, manager := .pip }

/-- Concrete environment where all three collectors fail: every spawned
command exits with code 2. -/
def envAllFail : Env :=
  { spawn := fun _ _ => { code := 2, stdout := "", stderr := "boom" }
    parseBrewOutdated := rejectParse
    parseNpmLs := rejectParse
    parseNpmOutdated := rejectParse
    parsePipList := rejectParse
    parsePipOutdated := rejectParse }


/-- The npm dependencies record `envHappy`'s listing parses to. -/
def happyNpmTree : NpmTree :=
  { dependencies := some [("typescript", some { version := some "5.5.2" })] }

/-- The npm outdated entries `envHappy`'s outdated body parses to. -/
def happyNpmEntries : List (String × Option NpmOutdatedDetails) :=
  [("typescript", some { latest := some "5.6.3" })]

/-- The pip packages the happy listing parses to. -/
def happyPipInstalled : List PipPackage :=
  [{ name := "requests", version := "2.32.3" }]


/-- A snapshot whose packages are *not* grouped in manager enumeration
order: the pip record precedes the brew record. -/
def misorderedSnapshot : InventorySnapshot :=
  { generated_at := some "2025-10-05T12:34:56Z"
    packages := [requestsRecord, wgetRecord] }

/-- The happy-path snapshot contents in manager enumeration order. -/
def orderedSnapshot : InventorySnapshot :=
  { generated_at := some "2025-10-05T12:34:56Z"
    packages := [wgetRecord, typescriptRecord, requestsRecord] }

/-- An idle scheduler holding no current summary. -/
def idleScheduler : RefreshScheduler :=
  { inflight := none, current := none, started := 0 }


lemma collectInventory_eq (env : Env) (now : String) :
    collectInventory env now =
      { snapshot :=
          { generated_at := some now
            packages := okRecords (collectBrewResult env)
              ++ okRecords (collectNpmResult env)
              ++ okRecords (collectPipResult env) }
        warnings := failWarnings .brew (collectBrewResult env)
          ++ failWarnings .npm (collectNpmResult env)
          ++ failWarnings .pip (collectPipResult env) } := by
  cases hB : collectBrewResult env <;> cases hN : collectNpmResult env <;>
    cases hP : collectPipResult env <;>
    simp [collectInventory, handlers, inventoryStep, hB, hN, hP, okRecords,
      failWarnings]

lemma collectBrew_ok_shape (env : Env) (recs : List PackageRecord)
    (h : collectBrewResult env = .ok recs) :
    ∃ (installed : List (String × String)) (omap : List (String × String)),
      recs = installed.map fun p => mkBrewRecord p.1 p.2 (mapGet omap p.1) := by
  rw [collectBrewResult, collectBrew] at h
  rcases h1 : runCommand env "brew" ["list", "--versions"] [0] with e | list <;>
    rw [h1] at h
  · simp at h
  · simp only at h
    by_cases h2 : (parseBrewList list.stdout).isEmpty
    · rw [if_pos h2] at h
      simp at h
      exact ⟨[], [], by simp [← h]⟩
    · rw [if_neg h2] at h
      rcases h3 : runCommand env "brew" ["outdated", "--json=v2"] [0] with e | outdated <;>
        rw [h3] at h
      · simp at h
      · simp only at h
        by_cases h4 : jsTrim outdated.stdout ≠ ""
        · rw [if_pos h4] at h
          rcases h5 : env.parseBrewOutdated outdated.stdout with e | parsed <;>
            rw [h5] at h <;> simp at h
          exact ⟨parseBrewList list.stdout, buildBrewOutdatedMap parsed, h.symm⟩
        · rw [if_neg h4] at h
          simp at h
          exact ⟨parseBrewList list.stdout, [], h.symm⟩

lemma collectNpm_ok_shape (env : Env) (recs : List PackageRecord)
    (h : collectNpmResult env = .ok recs) :
    ∃ (deps : List (String × Option NpmDep)) (omap : List (String × String)),
      recs = buildNpmPackages deps omap := by
  rw [collectNpmResult, collectNpm] at h
  rcases h1 : runCommand env "npm" ["ls", "-g", "--depth=0", "--json"] [0] with e | list <;>
    rw [h1] at h
  · simp at h
  · simp only at h
    rcases h2 : env.parseNpmLs list.stdout with e | parsed <;> rw [h2] at h
    · simp at h
    · simp only at h
      rcases h3 : runCommand env "npm" ["outdated", "-g", "--json"] [0, 1] with e | outdated <;>
        rw [h3] at h
      · simp at h
      · simp only at h
        by_cases h4 : jsTrim outdated.stdout ≠ ""
        · rw [if_pos h4] at h
          rcases h5 : env.parseNpmOutdated outdated.stdout with e | entries <;>
            rw [h5] at h <;> simp at h
          exact ⟨parsed.dependencies.getD [], buildNpmOutdatedMap entries, h.symm⟩
        · rw [if_neg h4] at h
          simp at h
          exact ⟨parsed.dependencies.getD [], [], h.symm⟩

lemma collectPip_ok_shape (env : Env) (recs : List PackageRecord)
    (h : collectPipResult env = .ok recs) :
    ∃ (installed : List PipPackage) (omap : List (String × String)),
      recs = installed.map (mkPipRecord omap) := by
  rw [collectPipResult, collectPip] at h
  rcases h1 : runCommand env "pip" ["list", "--format=json"] [0] with e | list <;>
    rw [h1] at h
  · simp at h
  · simp only at h
    rcases h2 : env.parsePipList list.stdout with e | installed <;> rw [h2] at h
    · simp at h
    · simp only at h
      rcases h3 : runCommand env "pip" ["list", "--outdated", "--format=json"] [0] with e | outdated <;>
        rw [h3] at h
      · simp at h
      · simp only at h
        by_cases h4 : jsTrim outdated.stdout ≠ ""
        · rw [if_pos h4] at h
          rcases h5 : env.parsePipOutdated outdated.stdout with e | parsed <;>
            rw [h5] at h <;> simp at h
          exact ⟨installed, _, h.symm⟩
        · rw [if_neg h4] at h
          simp at h
          exact ⟨installed, [], h.symm⟩

/-- The properties the claims need of one emitted record. -/
abbrev RecordProps (m : PackageManager) (outdatedIff : PackageRecord → Prop)
    (r : PackageRecord) : Prop :=
  r.manager = m ∧ r.installed_at = none ∧ r.status ≠ .unknown ∧
    (r.status = .outdated ↔ outdatedIff r)

lemma mkBrewRecord_props (n c : String) (l : Option String) :
    RecordProps .brew
      (fun r => jsOptTruthy r.latest_version = true ∧ r.latest_version ≠ some r.current_version)
      (mkBrewRecord n c l) := by
  refine ⟨rfl, rfl, ?_, ?_⟩ <;>
    by_cases h1 : jsOptTruthy l <;> by_cases h2 : l = some c <;>
      simp [mkBrewRecord, h1, h2]

lemma mkNpmRecord_props (omap : List (String × String)) (n v : String) :
    RecordProps .npm (fun r => jsOptTruthy r.latest_version = true)
      (mkNpmRecord omap n v) := by
  refine ⟨rfl, rfl, ?_, ?_⟩ <;>
    by_cases h1 : jsOptTruthy (mapGet omap n) <;> simp [mkNpmRecord, h1]

lemma mkPipRecord_props (omap : List (String × String)) (pkg : PipPackage) :
    RecordProps .pip (fun r => jsOptTruthy r.latest_version = true)
      (mkPipRecord omap pkg) := by
  refine ⟨rfl, rfl, ?_, ?_⟩ <;>
    by_cases h1 : jsOptTruthy (mapGet omap pkg.name) <;> simp [mkPipRecord, h1]

lemma npm_foldl_mem (omap : List (String × String)) :
    ∀ (deps : List (String × Option NpmDep)) (acc : List PackageRecord),
      (∀ x ∈ acc, ∃ n v, x = mkNpmRecord omap n v) →
      ∀ x ∈ deps.foldl (npmStep omap) acc, ∃ n v, x = mkNpmRecord omap n v := by
  intro deps
  induction deps with
  | nil => intro acc hacc x hx; exact hacc x hx
  | cons entry rest ih =>
    intro acc hacc x hx
    rw [List.foldl_cons] at hx
    refine ih (npmStep omap acc entry) ?_ x hx
    intro y hy
    rcases entry with ⟨n, dep⟩
    rcases dep with _ | ⟨pkg⟩ <;> simp only [npmStep] at hy
    · exact hacc y hy
    · rcases hv : pkg.version with _ | v <;> simp only [hv] at hy
      · exact hacc y hy
      · by_cases htruthy : jsTruthy v = true <;> simp only [htruthy, if_true, if_false] at hy
        · rcases List.mem_append.mp hy with hmem | hmem
          · exact hacc y hmem
          · simp at hmem
            exact ⟨n, v, hmem⟩
        · exact hacc y hy

lemma buildNpmPackages_mem (deps : List (String × Option NpmDep))
    (omap : List (String × String)) (r : PackageRecord)
    (hr : r ∈ buildNpmPackages deps omap) :
    ∃ n v, r = mkNpmRecord omap n v := by
  rw [buildNpmPackages] at hr
  exact npm_foldl_mem omap deps [] (by simp) r hr

lemma collectBrew_record_facts (env : Env) :
    ∀ r ∈ okRecords (collectBrewResult env),
      r.manager = .brew ∧ r.installed_at = none := by
  intro r hr
  rcases hres : collectBrewResult env with e | recs <;> rw [hres] at hr
  · simp [okRecords] at hr
  · simp only [okRecords] at hr
    obtain ⟨installed, omap, rfl⟩ := collectBrew_ok_shape env recs hres
    obtain ⟨p, hp, rfl⟩ := List.mem_map.mp hr
    exact ⟨rfl, rfl⟩

lemma collectNpm_record_facts (env : Env) :
    ∀ r ∈ okRecords (collectNpmResult env),
      r.manager = .npm ∧ r.installed_at = none := by
  intro r hr
  rcases hres : collectNpmResult env with e | recs <;> rw [hres] at hr
  · simp [okRecords] at hr
  · simp only [okRecords] at hr
    obtain ⟨deps, omap, rfl⟩ := collectNpm_ok_shape env recs hres
    obtain ⟨n, v, rfl⟩ := buildNpmPackages_mem deps omap r hr
    exact ⟨rfl, rfl⟩

lemma collectPip_record_facts (env : Env) :
    ∀ r ∈ okRecords (collectPipResult env),
      r.manager = .pip ∧ r.installed_at = none := by
  intro r hr
  rcases hres : collectPipResult env with e | recs <;> rw [hres] at hr
  · simp [okRecords] at hr
  · simp only [okRecords] at hr
    obtain ⟨installed, omap, rfl⟩ := collectPip_ok_shape env recs hres
    obtain ⟨p, hp, rfl⟩ := List.mem_map.mp hr
    exact ⟨rfl, rfl⟩

lemma parseWireRecords_serialize (m : PackageManager) (l : List PackageRecord)
    (hl : ∀ r ∈ l, r.manager = m) :
    parseWireRecords m (l.map serializeRecord) = some l := by
  induction l with
  | nil => rfl
  | cons r rest ih =>
    have hm : r.manager = m := hl r (List.mem_cons_self r rest)
    have hrest : parseWireRecords m (rest.map serializeRecord) = some rest :=
      ih fun x hx => hl x (List.mem_cons_of_mem r hx)
    have hrec : parseWireRecord m (serializeRecord r) = some r := by
      rcases r with ⟨n, c, l0, i, st, mg⟩
      cases hm
      cases st <;> rfl
    simp [parseWireRecords, hrec, hrest]

/-- **C1, counterexample.** The pip outdated body can list a package whose
`latest_version` equals the installed version; the emitted record then has
`latest_version = current_version` yet `status = "outdated"`, refuting
"status = outdated iff latest_version is present and differs from
current_version" (and with data present the claim would demand `current`,
not `unknown`, so the record also fixes the claim's third branch). -/
theorem C1_counterexample :
    collectPipResult envPipEqual = .ok [alphaRecord] ∧
    ¬ (alphaRecord.status = .outdated ↔
        (alphaRecord.latest_version.isSome = true ∧
         alphaRecord.latest_version ≠ some alphaRecord.current_version)) := by
  constructor
  · decide
  · decide

/-- **C1 (amended).** No collector ever emits `status = "unknown"` (a failed
outdated step fails the whole collector; a package with no outdated data gets
`"current"`). Brew derives `status = "outdated"` iff `latest_version` is
truthy (present and non-empty) and differs from `current_version`; npm and
pip derive `status = "outdated"` iff `latest_version` is truthy, even when it
equals `current_version`; otherwise the status is `"current"`. -/
theorem C1_status_derivation (env : Env) :
    (∀ recs r, collectBrewResult env = .ok recs → r ∈ recs →
      r.status ≠ .unknown ∧
      (r.status = .outdated ↔
        (jsOptTruthy r.latest_version = true ∧
         r.latest_version ≠ some r.current_version))) ∧
    (∀ recs r, collectNpmResult env = .ok recs → r ∈ recs →
      r.status ≠ .unknown ∧
      (r.status = .outdated ↔ jsOptTruthy r.latest_version = true)) ∧
    (∀ recs r, collectPipResult env = .ok recs → r ∈ recs →
      r.status ≠ .unknown ∧
      (r.status = .outdated ↔ jsOptTruthy r.latest_version = true)) := by
  refine ⟨?_, ?_, ?_⟩
  · intro recs r hres hr
    obtain ⟨installed, omap, rfl⟩ := collectBrew_ok_shape env recs hres
    obtain ⟨p, hp, rfl⟩ := List.mem_map.mp hr
    obtain ⟨-, -, hu, hiff⟩ := mkBrewRecord_props p.1 p.2 (mapGet omap p.1)
    exact ⟨hu, hiff⟩
  · intro recs r hres hr
    obtain ⟨deps, omap, rfl⟩ := collectNpm_ok_shape env recs hres
    obtain ⟨n, v, rfl⟩ := buildNpmPackages_mem deps omap r hr
    obtain ⟨-, -, hu, hiff⟩ := mkNpmRecord_props omap n v
    exact ⟨hu, hiff⟩
  · intro recs r hres hr
    obtain ⟨installed, omap, rfl⟩ := collectPip_ok_shape env recs hres
    obtain ⟨p, hp, rfl⟩ := List.mem_map.mp hr
    obtain ⟨-, -, hu, hiff⟩ := mkPipRecord_props omap p
    exact ⟨hu, hiff⟩

/-- Witness for C1 (amended): the happy-path brew record. -/
theorem C1_status_derivation_witness :
    wgetRecord.status ≠ .unknown ∧
    (wgetRecord.status = .outdated ↔
      (jsOptTruthy wgetRecord.latest_version = true ∧
       wgetRecord.latest_version ≠ some wgetRecord.current_version)) :=
  (C1_status_derivation envHappy).1 [wgetRecord] wgetRecord (by decide) (by decide)

/-- **C2.** `collectInventory` always returns a `CollectionSummary`: its
packages are exactly the successful collectors' records in manager order and
its warnings exactly one entry per failed collector naming that manager; in
particular with exactly one failing collector the packages come from the
other two managers only and there is exactly one warning, and with all three
failing the snapshot is empty with three warnings. -/
theorem C2_failure_isolation (env : Env) (now : String) :
    ((collectInventory env now).snapshot.packages =
        okRecords (collectBrewResult env) ++ okRecords (collectNpmResult env)
          ++ okRecords (collectPipResult env) ∧
      (collectInventory env now).warnings =
        failWarnings .brew (collectBrewResult env)
          ++ failWarnings .npm (collectNpmResult env)
          ++ failWarnings .pip (collectPipResult env)) ∧
    (∀ e ns ps, collectBrewResult env = .error e → collectNpmResult env = .ok ns →
        collectPipResult env = .ok ps →
      (collectInventory env now).snapshot.packages = ns ++ ps ∧
      (collectInventory env now).warnings = [{ manager := .brew, message := e }]) ∧
    (∀ e bs ps, collectBrewResult env = .ok bs → collectNpmResult env = .error e →
        collectPipResult env = .ok ps →
      (collectInventory env now).snapshot.packages = bs ++ ps ∧
      (collectInventory env now).warnings = [{ manager := .npm, message := e }]) ∧
    (∀ e bs ns, collectBrewResult env = .ok bs → collectNpmResult env = .ok ns →
        collectPipResult env = .error e →
      (collectInventory env now).snapshot.packages = bs ++ ns ∧
      (collectInventory env now).warnings = [{ manager := .pip, message := e }]) ∧
    (∀ e1 e2 e3, collectBrewResult env = .error e1 → collectNpmResult env = .error e2 →
        collectPipResult env = .error e3 →
      (collectInventory env now).snapshot.packages = [] ∧
      (collectInventory env now).warnings =
        [{ manager := .brew, message := e1 }, { manager := .npm, message := e2 },
         { manager := .pip, message := e3 }]) := by
  have h := collectInventory_eq env now
  refine ⟨⟨by rw [h], by rw [h]⟩, ?_, ?_, ?_, ?_⟩
  · intro e ns ps hB hN hP
    rw [h]
    simp [hB, hN, hP, okRecords, failWarnings]
  · intro e bs ps hB hN hP
    rw [h]
    simp [hB, hN, hP, okRecords, failWarnings]
  · intro e bs ns hB hN hP
    rw [h]
    simp [hB, hN, hP, okRecords, failWarnings]
  · intro e1 e2 e3 hB hN hP
    rw [h]
    simp [hB, hN, hP, okRecords, failWarnings]

/-- Witness for C2: with npm's listing malformed and brew/pip healthy, the
snapshot holds exactly the brew and pip records and the single warning names
npm. -/
theorem C2_failure_isolation_witness :
    (collectInventory envNpmFails "2025-10-05T12:34:56Z").snapshot.packages =
      [wgetCurrentRecord] ++ [requestsCurrentRecord] ∧
    (collectInventory envNpmFails "2025-10-05T12:34:56Z").warnings =
      [{ manager := .npm,
         message := "Failed to parse npm ls JSON: SyntaxError: Unexpected token" }] :=
  (C2_failure_isolation envNpmFails "2025-10-05T12:34:56Z").2.2.1
    "Failed to parse npm ls JSON: SyntaxError: Unexpected token"
    [wgetCurrentRecord] [requestsCurrentRecord] (by decide) (by decide) (by decide)

/-- **C3, counterexample.** With npm's inventory step succeeding and parsing
to an empty dependencies record, `collectNpm` still spawns the outdated
command `npm outdated -g --json`, refuting "for every manager ... the
outdated step is never invoked". -/
theorem C3_counterexample :
    envAllEmpty.parseNpmLs
        (envAllEmpty.spawn "npm" ["ls", "-g", "--depth=0", "--json"]).stdout =
      .ok { dependencies := some [] } ∧
    collectNpmResult envAllEmpty = .ok [] ∧
    npmOutdatedInvocation ∈ collectNpmSpawns envAllEmpty := by
  refine ⟨by decide, by decide, by decide⟩

/-- **C3 (amended).** Only brew has the empty-inventory early return: when
its listing succeeds and parses to zero packages, `collectBrew` returns an
empty record set having spawned only the inventory command. npm and pip
spawn their outdated command even when the inventory step succeeds with zero
installed packages. -/
theorem C3_empty_inventory (env : Env) :
    (∀ list, runCommand env "brew" ["list", "--versions"] [0] = .ok list →
      parseBrewList list.stdout = [] →
      collectBrew env = (.ok [], [brewListInvocation])) ∧
    (∀ list tree, runCommand env "npm" ["ls", "-g", "--depth=0", "--json"] [0] = .ok list →
      env.parseNpmLs list.stdout = .ok tree →
      collectNpmSpawns env = [npmLsInvocation, npmOutdatedInvocation]) ∧
    (∀ list installed, runCommand env "pip" ["list", "--format=json"] [0] = .ok list →
      env.parsePipList list.stdout = .ok installed →
      collectPipSpawns env = [pipListInvocation, pipOutdatedInvocation]) := by
  refine ⟨?_, ?_, ?_⟩
  · intro list h1 h2
    rw [collectBrew, h1]
    simp [h2]
  · intro list tree h1 h2
    rw [collectNpmSpawns, collectNpm, h1]
    simp only [h2]
    cases runCommand env "npm" ["outdated", "-g", "--json"] [0, 1]
    · rfl
    · split <;> try rfl
      all_goals split <;> rfl
  · intro list installed h1 h2
    rw [collectPipSpawns, collectPip, h1]
    simp only [h2]
    cases runCommand env "pip" ["list", "--outdated", "--format=json"] [0]
    · rfl
    · split <;> try rfl
      all_goals split <;> rfl

/-- Witness for C3 (amended): the all-empty environment. -/
theorem C3_empty_inventory_witness :
    collectBrew envAllEmpty = (.ok [], [brewListInvocation]) ∧
    collectNpmSpawns envAllEmpty = [npmLsInvocation, npmOutdatedInvocation] ∧
    collectPipSpawns envAllEmpty = [pipListInvocation, pipOutdatedInvocation] :=
  ⟨(C3_empty_inventory envAllEmpty).1
      { code := 0, stdout := "", stderr := "" } (by decide) (by decide),
   (C3_empty_inventory envAllEmpty).2.1
      { code := 0, stdout := "NPM_LS_EMPTY_BODY", stderr := "" }
      { dependencies := some [] } (by decide) (by decide),
   (C3_empty_inventory envAllEmpty).2.2
      { code := 0, stdout := "PIP_LIST_EMPTY_BODY", stderr := "" } [] (by decide) (by decide)⟩

/-- **C4.** `runCommand` contract: the default allow-list is `[0]`; when the
observed exit code is allowed the call returns that exit code with the full
captured stdout and stderr; when it is not, the call fails with the
command-failure error built from the program, the arguments, the exit code
and the stderr — and only then. -/
theorem C4_runCommand_contract (env : Env) (program : String) (args : List String)
    (allowed : List Int) :
    runCommandDefault env program args = runCommand env program args [0] ∧
    ((env.spawn program args).code ∈ allowed →
      runCommand env program args allowed =
        .ok { code := (env.spawn program args).code
              stdout := (env.spawn program args).stdout
              stderr := (env.spawn program args).stderr }) ∧
    ((env.spawn program args).code ∉ allowed →
      runCommand env program args allowed =
        .error (commandFailureMessage program args (env.spawn program args).code
          (env.spawn program args).stderr)) := by
  refine ⟨rfl, ?_, ?_⟩
  · intro h
    rw [runCommand, if_pos (List.elem_eq_true_of_mem h)]
  · intro h
    rw [runCommand, if_neg]
    simp [List.elem_iff, h]

/-- Witness for C4: a disallowed exit code 2 under the all-fail environment
and an allowed exit code 0 under the happy environment. -/
theorem C4_runCommand_contract_witness :
    runCommand envAllFail "brew" ["list", "--versions"] [0] =
      .error (commandFailureMessage "brew" ["list", "--versions"] 2 "boom") ∧
    runCommand envHappy "pip" ["list", "--format=json"] [0] =
      .ok { code := 0, stdout := "PIP_LIST_BODY", stderr := "" } :=
  ⟨(C4_runCommand_contract envAllFail "brew" ["list", "--versions"] [0]).2.2 (by decide),
   (C4_runCommand_contract envHappy "pip" ["list", "--format=json"] [0]).2.1 (by decide)⟩

/-- **C5.** The npm outdated step allows exit code 1: when the inventory step
succeeds and parses, and `npm outdated -g --json` exits with code 1 and a
non-blank body that parses, `collectNpm` succeeds with the latest-version
map built from that body. -/
theorem C5_npm_exit_code_one (env : Env) (list : CommandResult) (tree : NpmTree)
    (entries : List (String × Option NpmOutdatedDetails)) :
    runCommand env "npm" ["ls", "-g", "--depth=0", "--json"] [0] = .ok list →
    env.parseNpmLs list.stdout = .ok tree →
    (env.spawn "npm" ["outdated", "-g", "--json"]).code = 1 →
    jsTrim (env.spawn "npm" ["outdated", "-g", "--json"]).stdout ≠ "" →
    env.parseNpmOutdated (env.spawn "npm" ["outdated", "-g", "--json"]).stdout =
      .ok entries →
    collectNpmResult env =
      .ok (buildNpmPackages (tree.dependencies.getD []) (buildNpmOutdatedMap entries)) := by
  intro h1 h2 h3 h4 h5
  have hout : runCommand env "npm" ["outdated", "-g", "--json"] [0, 1] =
      .ok { code := (env.spawn "npm" ["outdated", "-g", "--json"]).code
            stdout := (env.spawn "npm" ["outdated", "-g", "--json"]).stdout
            stderr := (env.spawn "npm" ["outdated", "-g", "--json"]).stderr } := by
    rw [runCommand, if_pos]
    rw [h3]
    decide
  rw [collectNpmResult, collectNpm, h1]
  simp only [h2]
  rw [hout]
  simp only [if_pos h4, h5]

/-- Witness for C5: the happy environment, whose npm outdated step exits
with code 1 and the body naming `typescript`. -/
theorem C5_npm_exit_code_one_witness :
    collectNpmResult envHappy =
      .ok (buildNpmPackages (happyNpmTree.dependencies.getD [])
        (buildNpmOutdatedMap happyNpmEntries)) :=
  C5_npm_exit_code_one envHappy
    { code := 0, stdout := "NPM_LS_BODY", stderr := "" }
    happyNpmTree happyNpmEntries
    (by decide) (by decide) (by decide) (by decide) (by decide)

/-- **C6.** When the pip inventory step succeeds and parses and the pip
outdated step succeeds with whitespace-only stdout, `collectPip` succeeds
and every emitted record has `latest_version = null` and
`status = "current"`. -/
theorem C6_pip_empty_outdated (env : Env) (list outd : CommandResult)
    (installed : List PipPackage) :
    runCommand env "pip" ["list", "--format=json"] [0] = .ok list →
    env.parsePipList list.stdout = .ok installed →
    runCommand env "pip" ["list", "--outdated", "--format=json"] [0] = .ok outd →
    jsTrim outd.stdout = "" →
    collectPipResult env = .ok (installed.map (mkPipRecord [])) ∧
    ∀ r ∈ installed.map (mkPipRecord []),
      r.latest_version = none ∧ r.status = .current := by
  intro h1 h2 h3 h4
  constructor
  · rw [collectPipResult, collectPip, h1]
    simp only [h2]
    rw [h3]
    simp only [h4, if_neg]
    simp
  · intro r hr
    obtain ⟨p, hp, rfl⟩ := List.mem_map.mp hr
    exact ⟨rfl, rfl⟩

/-- Witness for C6: the happy environment, whose pip outdated stdout is two
spaces. -/
theorem C6_pip_empty_outdated_witness :
    collectPipResult envHappy = .ok (happyPipInstalled.map (mkPipRecord [])) ∧
    requestsRecord.latest_version = none ∧ requestsRecord.status = .current :=
  ⟨(C6_pip_empty_outdated envHappy
      { code := 0, stdout := "PIP_LIST_BODY", stderr := "" }
      { code := 0, stdout := "  ", stderr := "" }
      happyPipInstalled (by decide) (by decide) (by decide) (by decide)).1,
   (C6_pip_empty_outdated envHappy
      { code := 0, stdout := "PIP_LIST_BODY", stderr := "" }
      { code := 0, stdout := "  ", stderr := "" }
      happyPipInstalled (by decide) (by decide) (by decide) (by decide)).2
      requestsRecord (by decide)⟩

/-- **C7.** Within one `collectInventory` run the packages sequence is the
brew collector's records, then the npm collector's, then the pip
collector's — each block contiguous, in that collector's own emission
(discovery) order, and homogeneous in its manager tag. -/
theorem C7_deterministic_ordering (env : Env) (now : String) :
    (collectInventory env now).snapshot.packages =
      okRecords (collectBrewResult env) ++ okRecords (collectNpmResult env)
        ++ okRecords (collectPipResult env) ∧
    (∀ r ∈ okRecords (collectBrewResult env), r.manager = .brew) ∧
    (∀ r ∈ okRecords (collectNpmResult env), r.manager = .npm) ∧
    (∀ r ∈ okRecords (collectPipResult env), r.manager = .pip) := by
  refine ⟨by rw [collectInventory_eq], ?_, ?_, ?_⟩
  · intro r hr; exact (collectBrew_record_facts env r hr).1
  · intro r hr; exact (collectNpm_record_facts env r hr).1
  · intro r hr; exact (collectPip_record_facts env r hr).1

/-- Witness for C7: the happy environment yields the brew, npm, pip records
in that order, and the record in the brew block carries the brew tag. -/
theorem C7_deterministic_ordering_witness :
    (collectInventory envHappy "2025-10-05T12:34:56Z").snapshot.packages =
      [wgetRecord, typescriptRecord, requestsRecord] ∧
    wgetRecord.manager = .brew :=
  ⟨by rw [(C7_deterministic_ordering envHappy "2025-10-05T12:34:56Z").1]; decide,
   (C7_deterministic_ordering envHappy "2025-10-05T12:34:56Z").2.1
     wgetRecord (by decide)⟩

/-- **C10.** Every record emitted by any of the three collectors — and hence
every record in any `collectInventory` snapshot — has `installed_at = null`:
the pipeline consults no install-date source (the embedding's collaborators
are only the process boundary and the JSON parse sites) and every record
constructor sets the field to the absent marker. -/
theorem C10_installed_at_null (env : Env) (now : String) :
    (∀ recs r, collectBrewResult env = .ok recs → r ∈ recs →
      r.installed_at = none) ∧
    (∀ recs r, collectNpmResult env = .ok recs → r ∈ recs →
      r.installed_at = none) ∧
    (∀ recs r, collectPipResult env = .ok recs → r ∈ recs →
      r.installed_at = none) ∧
    (∀ r ∈ (collectInventory env now).snapshot.packages,
      r.installed_at = none) := by
  refine ⟨?_, ?_, ?_, ?_⟩
  · intro recs r hres hr
    exact (collectBrew_record_facts env r (by rw [hres]; exact hr)).2
  · intro recs r hres hr
    exact (collectNpm_record_facts env r (by rw [hres]; exact hr)).2
  · intro recs r hres hr
    exact (collectPip_record_facts env r (by rw [hres]; exact hr)).2
  · intro r hr
    rw [collectInventory_eq] at hr
    simp only at hr
    rcases List.mem_append.mp hr with h | h
    · rcases List.mem_append.mp h with h2 | h2
      · exact (collectBrew_record_facts env r h2).2
      · exact (collectNpm_record_facts env r h2).2
    · exact (collectPip_record_facts env r h).2

/-- Witness for C10: the happy snapshot's records. -/
theorem C10_installed_at_null_witness :
    wgetRecord.installed_at = none ∧ requestsRecord.installed_at = none :=
  ⟨(C10_installed_at_null envHappy "2025-10-05T12:34:56Z").1
      [wgetRecord] wgetRecord (by decide) (by decide),
   (C10_installed_at_null envHappy "2025-10-05T12:34:56Z").2.2.1
      [requestsRecord] requestsRecord (by decide) (by decide)⟩

lemma filter_manager_eq_self (l : List PackageRecord) (m : PackageManager)
    (h : ∀ r ∈ l, r.manager = m) :
    l.filter (fun r => r.manager = m) = l :=
  List.filter_eq_self.mpr fun r hr => by simp [h r hr]

lemma filter_manager_eq_nil (l : List PackageRecord) (m mo : PackageManager)
    (h : ∀ r ∈ l, r.manager = mo) (hne : mo ≠ m) :
    l.filter (fun r => r.manager = m) = [] :=
  List.filter_eq_nil_iff.mpr fun r hr => by simp [h r hr, hne]

/-- **C8, counterexample.** Serialization groups records under their
manager's key, so a snapshot whose packages are not already in manager
enumeration order does not round-trip to an equal snapshot: the parsed
result has the blocks reordered. -/
theorem C8_counterexample :
    parseWireDoc (serializeSnapshot misorderedSnapshot) ≠ some misorderedSnapshot ∧
    parseWireDoc (serializeSnapshot misorderedSnapshot) =
      some { generated_at := some "2025-10-05T12:34:56Z"
             packages := [wgetRecord, requestsRecord] } := by
  refine ⟨by decide, by decide⟩

/-- **C8 (amended).** For every snapshot whose packages are grouped in
manager enumeration order (brew block, then npm block, then pip block — as
every snapshot the aggregator produces is), serializing to the wire document
and parsing back yields the original snapshot; the `unknown ↔ "-"` status
mapping round-trips symmetrically in both directions. -/
theorem C8_wire_roundtrip :
    (∀ (s : InventorySnapshot) (B N P : List PackageRecord),
      s.packages = B ++ N ++ P →
      (∀ r ∈ B, r.manager = .brew) →
      (∀ r ∈ N, r.manager = .npm) →
      (∀ r ∈ P, r.manager = .pip) →
      parseWireDoc (serializeSnapshot s) = some s) ∧
    (∀ st, parseStatus (serializeStatus st) = some st) ∧
    (∀ w st, parseStatus w = some st → serializeStatus st = w) := by
  refine ⟨?_, ?_, ?_⟩
  · intro s B N P hpkg hB hN hP
    have hfB : s.packages.filter (fun r => r.manager = PackageManager.brew) = B := by
      rw [hpkg, List.filter_append, List.filter_append,
        filter_manager_eq_self B .brew hB,
        filter_manager_eq_nil N .brew .npm hN (by decide),
        filter_manager_eq_nil P .brew .pip hP (by decide)]
      simp
    have hfN : s.packages.filter (fun r => r.manager = PackageManager.npm) = N := by
      rw [hpkg, List.filter_append, List.filter_append,
        filter_manager_eq_self N .npm hN,
        filter_manager_eq_nil B .npm .brew hB (by decide),
        filter_manager_eq_nil P .npm .pip hP (by decide)]
      simp
    have hfP : s.packages.filter (fun r => r.manager = PackageManager.pip) = P := by
      rw [hpkg, List.filter_append, List.filter_append,
        filter_manager_eq_self P .pip hP,
        filter_manager_eq_nil B .pip .brew hB (by decide),
        filter_manager_eq_nil N .pip .npm hN (by decide)]
      simp
    rw [parseWireDoc, serializeSnapshot]
    simp only [hfB, hfN, hfP]
    rw [parseWireRecords_serialize .brew B hB,
      parseWireRecords_serialize .npm N hN,
      parseWireRecords_serialize .pip P hP]
    simp [← hpkg]
  · intro st
    cases st <;> rfl
  · intro w st h
    rw [parseStatus] at h
    by_cases h1 : w = "current"
    · simp [h1] at h; rw [← h]; exact h1.symm ▸ rfl
    · by_cases h2 : w = "outdated"
      · simp [h1, h2] at h; rw [← h]; exact h2.symm ▸ rfl
      · by_cases h3 : w = "-"
        · simp [h1, h2, h3] at h; rw [← h]; exact h3.symm ▸ rfl
        · simp [h1, h2, h3] at h

/-- Witness for C8 (amended): the ordered happy-path snapshot round-trips. -/
theorem C8_wire_roundtrip_witness :
    parseWireDoc (serializeSnapshot orderedSnapshot) = some orderedSnapshot ∧
    parseStatus (serializeStatus .unknown) = some .unknown :=
  ⟨C8_wire_roundtrip.1 orderedSnapshot
      [wgetRecord] [typescriptRecord] [requestsRecord]
      (by decide) (by decide) (by decide) (by decide),
   C8_wire_roundtrip.2.1 .unknown⟩

/-- **C9.** At-most-one in-flight aggregation: `refreshNow` on a `Running`
scheduler returns the in-flight run's eventual result and changes nothing
(in particular starts no aggregation); from `Idle`, a first `refreshNow`
starts one aggregation and a second call issued while that run is in flight
observes the same summary, the started-aggregation count having grown by
exactly one across both calls. -/
theorem C9_at_most_one_inflight :
    (∀ (s : RefreshScheduler) (r other : CollectionSummary),
      s.inflight = some r → refreshNow other s = (s, r)) ∧
    (∀ (s0 : RefreshScheduler) (res other : CollectionSummary),
      s0.inflight = none →
      (refreshNow res s0).2 = res ∧
      (refreshNow other (refreshNow res s0).1).2 = res ∧
      (refreshNow other (refreshNow res s0).1).1.started = s0.started + 1) := by
  constructor
  · intro s r other h
    rw [refreshNow, h]
  · intro s0 res other h
    rw [refreshNow, h]
    simp [refreshNow]

/-- Witness for C9: from the idle scheduler, two back-to-back calls with the
happy summary in flight and a hypothetical second aggregation result both
observe the happy summary, with exactly one aggregation started. -/
theorem C9_at_most_one_inflight_witness :
    (refreshNow (collectInventory envHappy "2025-10-05T12:34:56Z") idleScheduler).2 =
      collectInventory envHappy "2025-10-05T12:34:56Z" ∧
    (refreshNow (collectInventory envAllFail "2025-10-05T12:34:56Z")
        (refreshNow (collectInventory envHappy "2025-10-05T12:34:56Z") idleScheduler).1).2 =
      collectInventory envHappy "2025-10-05T12:34:56Z" ∧
    (refreshNow (collectInventory envAllFail "2025-10-05T12:34:56Z")
        (refreshNow (collectInventory envHappy "2025-10-05T12:34:56Z") idleScheduler).1).1.started =
      idleScheduler.started + 1 :=
  C9_at_most_one_inflight.2 idleScheduler
    (collectInventory envHappy "2025-10-05T12:34:56Z")
    (collectInventory envAllFail "2025-10-05T12:34:56Z") (by decide)
